import Mathlib

/-!
Verification of the OAuth authentication flow controller
(`src/authentication/authenticator.ts` of `office-js-helpers`).

The controller is embedded shallowly:

* JavaScript objects that the code inspects with `'k' in obj` / `obj.k` are
  association lists `JObj` of string keys and string-or-integer values.
* The injected collaborators (`TokenManager`, `EndpointManager`), whose sources
  are not part of the verified tree, are modelled from the specification and
  marked `Modelled from the spec:` in their doc comments.
* `authenticate` and `exchangeCodeForToken` become pure functions from their
  inputs (store, registry, mode, execution context, current time, HTTP
  response) to the settlement of the returned promise plus the list of
  performed side effects.
* The asynchronous popup-polling loop and the host-dialog message handler
  become explicit state machines driven by lists of environment events.
-/

/- ### Character-list string utilities (structural, kernel-reducible) -/

/-- Boolean test that `needle` is an initial segment of `haystack`. -/
def leadsWith : List Char → List Char → Bool
  | [], _ => true
  | _ :: _, [] => false
  | a :: as, b :: bs => a == b && leadsWith as bs

/-- Boolean test that `needle` occurs contiguously anywhere inside `haystack`;
this is the semantics of `haystack.indexOf(needle) !== -1` in JavaScript and of
testing the regular expression made of the literal `needle`. -/
def occursWithin (needle : List Char) : List Char → Bool
  | [] => leadsWith needle []
  | b :: bs => leadsWith needle (b :: bs) || occursWithin needle bs

/-- Lower-case every character, modelling a case-insensitive comparison. -/
def lowerList (l : List Char) : List Char := l.map Char.toLower

/-- JavaScript `String.prototype.toUpperCase`, used for the popup window name. -/
def jsToUpper (s : String) : String := (s.toList.map Char.toUpper).asString

def splitOnCharAux (sep : Char) : List Char → List Char → List (List Char)
  | [], acc => [acc.reverse]
  | c :: cs, acc =>
    if c == sep then acc.reverse :: splitOnCharAux sep cs []
    else splitOnCharAux sep cs (c :: acc)

/-- Split a character list at every occurrence of `sep`. -/
def splitOnChar (sep : Char) (l : List Char) : List (List Char) := splitOnCharAux sep l []

/-- Parse a non-empty all-digit character list as a natural number. -/
def digitsToNat? (l : List Char) : Option Nat :=
  if l.isEmpty then none
  else
    l.foldl
      (fun acc c =>
        match acc with
        | none => none
        | some n => if c.isDigit then some (n * 10 + (c.toNat - 48)) else none)
      (some 0)

/- ### JavaScript object model -/

/-- Value of a field of a JavaScript object, restricted to the shapes the
controller manipulates: strings (URL parameters, token fields) and integers
(millisecond timestamps such as a normalized `expires_at`). -/
inductive JVal
  | s (v : String)
  | n (v : Int)
deriving DecidableEq

/-- Shallow embedding of a JavaScript object as an association list. -/
abbrev JObj := List (String × JVal)

/-- Value of field `k`, modelling `obj.k` (`none` plays the role of `undefined`). -/
def jLookup (j : JObj) (k : String) : Option JVal :=
  (j.find? (fun kv => kv.1 == k)).map (fun kv => kv.2)

/-- Key-membership test, modelling the JavaScript expression `'k' in obj`. -/
def hasKey (j : JObj) (k : String) : Bool :=
  j.any (fun kv => kv.1 == k)

/- ### Data model: endpoints, stores, registries -/

/-- Endpoint configuration (`IEndpoint` of `endpoint.manager`), restricted to the
fields `authenticator.ts` reads: `provider`, the authorize/base URL the login
URL is built from, `redirectUrl`, and the optional `tokenUrl`. -/
structure IEndpoint where
  provider : String
  baseUrl : String
  redirectUrl : String
  tokenUrl : Option String
deriving DecidableEq

/-- Error payload `{error: string}` (`IError` of `token.manager`). -/
structure IErrorS where
  error : String
deriving DecidableEq

/-- State of the Token Store: provider name to token record. -/
abbrev TokenStore := List (String × JObj)

/-- State of the Endpoint Registry: provider name to endpoint configuration. -/
abbrev EndpointRegistry := List (String × IEndpoint)

/-- Modelled from the spec: `TokenManager.get` is not under `src/`; the spec (§1, §6)
treats the Token Store as an injected persistent mapping with `get(provider)`
lookup semantics, modelled as association-list lookup. -/
def TokenManager.get (store : TokenStore) (provider : String) : Option JObj :=
  (store.find? (fun kv => kv.1 == provider)).map (fun kv => kv.2)

/-- Modelled from the spec: `TokenManager.add` is not under `src/`; the spec (§6)
gives the Token Store `add(provider, token)` write semantics on a persistent
mapping, modelled as overwriting the provider's entry. -/
def TokenManager.add (store : TokenStore) (provider : String) (t : JObj) : TokenStore :=
  (provider, t) :: store.filter (fun kv => !(kv.1 == provider))

/-- Modelled from the spec: `EndpointManager.get` is not under `src/`; the spec (§6)
gives the registry `get(provider) → Endpoint` semantics, and `authenticate`
in `authenticator.ts` compares its result against `null`, so a missing
provider yields `none`. -/
def EndpointManager.get (reg : EndpointRegistry) (provider : String) : Option IEndpoint :=
  (reg.find? (fun kv => kv.1 == provider)).map (fun kv => kv.2)

/-- Modelled from the spec: `EndpointManager.getLoginUrl` is not under `src/`; the
spec (§2, §6) fixes only its signature (endpoint configuration → login URL
string), modelled as returning the endpoint's authorize/base URL. -/
def EndpointManager.getLoginUrl (e : IEndpoint) : String := e.baseUrl

/- ### Redirect result parser (`TokenManager.getToken`) -/

/-- Key/value split of one `k=v` parameter segment. -/
def kvOfSegment (seg : List Char) : String × JVal :=
  match splitOnChar '=' seg with
  | [] => ("", .s "")
  | k :: vs => (k.asString, .s ((List.intercalate ['='] vs).asString))

/-- Modelled from the spec: the Redirect Result Parser (§4.5) lives in
`TokenManager.getToken`, which is not under `src/`. "Given a URL, extract query
and fragment parameters into a single flat mapping": the characters `?` and `#`
open parameter sections, `&` separates parameters and `=` separates a key from
its value; the part before the first `?` or `#` is the scheme/host/path and
carries no parameters. -/
def parseParams (url : String) : JObj :=
  let unified := url.toList.map (fun c => if c == '?' || c == '#' then '&' else c)
  match splitOnChar '&' unified with
  | [] => []
  | _ :: segs => segs.map kvOfSegment

/-- Modelled from the spec: `TokenManager.getToken(url, exclude)` is not under
`src/`; per §4.5, if the extracted mapping contains `access_token` the mapping is
returned as a token payload, normalizing a numeric `expires_in` (seconds) into an
absolute millisecond `expires_at`; else a mapping containing `code` or `error` is
returned as a code or error payload; else nothing is returned. The second
argument (the redirect-URI prefix the callers pass) does not affect which
parameters are extracted and is ignored by the model. -/
def TokenManager.getToken (now : Int) (url : String) (_exclude : String) : Option JObj :=
  let ps := parseParams url
  if hasKey ps "access_token" then
    some
      (match jLookup ps "expires_in" with
        | some (.s v) =>
          match digitsToNat? v.toList with
          | some secs => ps ++ [("expires_at", .n (now + 1000 * (secs : Int)))]
          | _ => ps
        | _ => ps)
  else if hasKey ps "code" then some ps
  else if hasKey ps "error" then some ps
  else none

/- ### The authentication mode and observable effects -/

/-- Enumeration `AuthenticationMode` from `authenticator.ts`. -/
inductive AuthenticationMode
  | Dialog
  | Redirect
deriving DecidableEq

/-- Observable side effects `authenticate` can perform before its promise is
created: console warnings, replacing the page location, and opening one of the
two interactive surfaces. -/
inductive Effect
  | consoleWarn (msg : String)
  | locationReplace (url : String)
  | openPopup (url : String) (windowName : String)
  | openDialog (url : String)
deriving DecidableEq

/-- Surface-opening effects (popup or host dialog). -/
def isSurfaceEffect : Effect → Bool
  | .openPopup _ _ => true
  | .openDialog _ => true
  | _ => false

/-- Sub-list of the effects that open an interactive surface. -/
def surfaceEffects (l : List Effect) : List Effect := l.filter isSurfaceEffect

/-- Immediate outcome of `authenticate`: either the promise settles at once
(resolution with a token, rejection with an error payload, or — in Redirect
mode — rejection whose reason is a *function value*), or control is handed to
one of the two interactive surfaces. -/
inductive AuthResult
  | resolvedToken (t : JObj)
  | rejectedError (e : IErrorS)
  | rejectedThunk (url : String) (e : IErrorS)
  | openedPopup (e : IEndpoint)
  | openedDialog (e : IEndpoint)
deriving DecidableEq

/-- Expiry test of the cache-check step (`authenticator.ts:62-67`): a token is
expired when it has an `expires_at` whose time lies strictly before `now`.
A missing `expires_at` is never expired; a non-numeric `expires_at` models a
string `new Date` cannot parse, whose `NaN` time makes the `< 0` comparison
false. -/
def tokenExpired (t : JObj) (now : Int) : Bool :=
  match jLookup t "expires_at" with
  | some (.n ts) => decide (ts - now < 0)
  | _ => false

/-- Endpoint lookup and surface selection of `authenticate`
(`authenticator.ts:75-88`), reached when the cache check did not resolve;
`warns` carries the console warning emitted by the expiry check. -/
def authenticateTail (reg : EndpointRegistry) (mode : AuthenticationMode) (isAddin : Bool)
    (provider : String) (warns : List Effect) : AuthResult × List Effect :=
  match EndpointManager.get reg provider with
  | none =>
    (.rejectedError ⟨"No such registered endpoint: " ++ provider ++ " could be found."⟩, warns)
  | some endpoint =>
    match mode with
    | .Redirect =>
      (.rejectedThunk (EndpointManager.getLoginUrl endpoint)
          ⟨"Redirecting to endpoint: " ++ provider⟩,
        warns)
    | .Dialog =>
      if isAddin then
        (.openedDialog endpoint, warns ++ [.openDialog (EndpointManager.getLoginUrl endpoint)])
      else
        (.openedPopup endpoint,
          warns ++
            [.openPopup (EndpointManager.getLoginUrl endpoint) (jsToUpper endpoint.provider)])

/-- Embedding of `Authenticator.authenticate(provider, force)`
(`authenticator.ts:58-89`). The cached token is looked up first; a cached
token with an expired `expires_at` logs a warning and forces re-authentication;
a cached token that is not expired resolves immediately unless `force` is set.
Only then is the endpoint looked up and a surface selected. In Redirect mode
the code passes `Promise.reject` a zero-argument *function* that would replace
the location and build the error payload; the function value is the rejection
reason and is never invoked, which `AuthResult.rejectedThunk` records together
with the absence of any `Effect.locationReplace`. -/
def authenticate (store : TokenStore) (reg : EndpointRegistry) (mode : AuthenticationMode)
    (isAddin : Bool) (provider : String) (force : Bool) (now : Int) :
    AuthResult × List Effect :=
  match TokenManager.get store provider with
  | some token =>
    if tokenExpired token now then
      authenticateTail reg mode isAddin provider
        [.consoleWarn ("Token for provider: " ++ provider ++ " has expired. Re-authenticating...")]
    else if force then
      authenticateTail reg mode isAddin provider []
    else
      (.resolvedToken token, [])
  | none => authenticateTail reg mode isAddin provider []

/- ### Code exchange (`Authenticator.exchangeCodeForToken`) -/

/-- HTTP response observed by the `onload` handler: status, raw body text, and
the result of `JSON.parse` on that body (`none` when parsing throws). -/
structure HttpResp where
  status : Nat
  raw : String
  parsed : Option JObj
deriving DecidableEq

/-- Reason carried by an `{error: ...}` rejection of the exchange: either a
string the code built, or the exception object thrown by `JSON.parse`. -/
inductive ErrVal
  | msg (m : String)
  | syntaxError (raw : String)
deriving DecidableEq

/-- Settlement of the promise returned by `exchangeCodeForToken`. -/
inductive XOutcome
  | resolved (v : JObj)
  | rejectedJson (v : JObj)
  | rejectedError (e : ErrVal)
  | thrownTypeError
deriving DecidableEq

/-- Full outcome of one `exchangeCodeForToken` call: the settlement of its
promise (`none` when the promise never settles), the resulting Token Store, and
whether a network request was issued. -/
structure XResult where
  settlement : Option XOutcome
  store : TokenStore
  requestSent : Bool
deriving DecidableEq

/-- Embedding of `Authenticator.exchangeCodeForToken(provider, data, headers)`
(`authenticator.ts:103-152`). Reading `.tokenUrl` of the `null` endpoint of an
unregistered provider throws a `TypeError` inside the promise executor, which
rejects the promise with that exception (`XOutcome.thrownTypeError`). With no
`tokenUrl` the data is resolved as-is. Otherwise a POST is issued and the
`onload` handler classifies `resp`; a transport fault never fires `onload`
(no `onerror` handler is installed), so the promise never settles
(`settlement = none`). -/
def exchangeCodeForToken (reg : EndpointRegistry) (store : TokenStore) (provider : String)
    (data : JObj) (resp : Option HttpResp) : XResult :=
  match EndpointManager.get reg provider with
  | none => { settlement := some .thrownTypeError, store := store, requestSent := false }
  | some endpoint =>
    match endpoint.tokenUrl with
    | none => { settlement := some (.resolved data), store := store, requestSent := false }
    | some _ =>
      match resp with
      | none => { settlement := none, store := store, requestSent := true }
      | some r =>
        if r.status == 200 then
          match r.parsed with
          | some json =>
            if hasKey json "access_token" then
              { settlement := some (.resolved json),
                store := TokenManager.add store endpoint.provider json, requestSent := true }
            else
              { settlement := some (.rejectedJson json), store := store, requestSent := true }
          | none =>
            { settlement := some (.rejectedError (.syntaxError r.raw)), store := store,
              requestSent := true }
        else
          { settlement := some (.rejectedError (.msg ("Request failed. " ++ r.raw))),
            store := store, requestSent := true }

/- ### Shared result classification (step 3 of the flow) -/

/-- Settlement of a surface promise (popup or dialog). -/
inductive SurfaceSettle
  | resolvedExchange (c : JObj)
  | resolvedToken (t : JObj)
  | rejectedNoToken
  | rejectedPayload (e : JObj)
  | rejectedExn
deriving DecidableEq

/-- Classification of a parsed payload, duplicated verbatim in both surfaces
(`authenticator.ts:218-227` and `265-274`): a `code` field resolves with the
pending code exchange, an `access_token` field stores and resolves the token,
anything else rejects with the payload. -/
def classifyPayload (r : JObj) : SurfaceSettle :=
  if hasKey r "code" then .resolvedExchange r
  else if hasKey r "access_token" then .resolvedToken r
  else .rejectedPayload r

/- ### Browser popup surface (`Authenticator._openInWindowPopup`) -/

/-- State of the popup polling loop. `refNull` records that `window.open`
returned `null` (popup blocked); `closedByCode` that `popupWindow.close()` ran;
`closedExternally` is the environment fact that the user closed the popup — the
code cannot observe it through the (never reassigned) `popupWindow` variable. -/
structure PopupState where
  refNull : Bool
  closedByCode : Bool
  closedExternally : Bool
  polling : Bool
  settled : Option SurfaceSettle
deriving DecidableEq

/-- State right after `window.open` and the `setInterval` call. -/
def popupInit (refNull : Bool) : PopupState :=
  { refNull := refNull, closedByCode := false, closedExternally := false,
    polling := true, settled := none }

/-- Observation one poll tick makes of `popupWindow.document.URL`: either the
read succeeds with a URL, or it throws (cross-origin access, blocked popup). -/
inductive PopupObs
  | url (u : String)
  | throws
deriving DecidableEq

/-- Events driving the popup machine: a tick of the 400 ms interval with its
observation, or the user closing the popup from outside. -/
inductive PopupEvent
  | tick (o : PopupObs)
  | externClose
deriving DecidableEq

/-- One transition of the polling loop (`authenticator.ts:210-236`). A tick
whose URL contains the redirect URL clears the interval, closes the popup and
classifies the parsed result; a tick that throws rejects only when the popup
reference is `null`, and is swallowed otherwise. -/
def popupStep (now : Int) (redirectUrl : String) (s : PopupState) (ev : PopupEvent) :
    PopupState :=
  match ev with
  | .externClose => { s with closedExternally := true }
  | .tick obs =>
    if !s.polling then s
    else
      match obs with
      | .url u =>
        if occursWithin redirectUrl.toList u.toList then
          let closed := { s with polling := false, closedByCode := true }
          match TokenManager.getToken now u redirectUrl with
          | none => { closed with settled := some .rejectedNoToken }
          | some r => { closed with settled := some (classifyPayload r) }
        else s
      | .throws =>
        if s.refNull then { s with polling := false, settled := some .rejectedExn }
        else s

/-- Run of the popup machine over a list of environment events. -/
def popupRun (now : Int) (redirectUrl : String) (refNull : Bool) (evs : List PopupEvent) :
    PopupState :=
  evs.foldl (popupStep now redirectUrl) (popupInit refNull)

/- ### Host dialog surface (`Authenticator._openInDialog`) -/

/-- Classification of one received dialog message string: empty (`null` or
`''`), a string `JSON.parse` throws on, or a parsed object. -/
inductive DialogMsg
  | empty
  | malformed
  | payload (j : JObj)
deriving DecidableEq

/-- State of the host dialog surface. -/
structure DialogState where
  dialogClosed : Bool
  settled : Option SurfaceSettle
deriving DecidableEq

/-- State right after `displayDialogAsync` installed the message handler. -/
def dialogInit : DialogState := { dialogClosed := false, settled := none }

/-- One run of the message handler (`authenticator.ts:256-279`): the dialog is
closed first, then the message is parsed and classified; a settled promise
ignores later resolutions and rejections. -/
def dialogStep (s : DialogState) (m : DialogMsg) : DialogState :=
  let closed : DialogState := { s with dialogClosed := true }
  match s.settled with
  | some _ => closed
  | none =>
    match m with
    | .empty => { closed with settled := some .rejectedNoToken }
    | .malformed => { closed with settled := some .rejectedExn }
    | .payload j => { closed with settled := some (classifyPayload j) }

/-- Run of the dialog machine over the received messages. -/
def dialogRun (msgs : List DialogMsg) : DialogState := msgs.foldl dialogStep dialogInit

/- ### URL classification (`Authenticator.isTokenUrl`, `Authenticator.isAuthDialog`) -/

/-- Embedding of `Authenticator.isTokenUrl(url)` (`authenticator.ts:181-184`):
the test of the regular expression `(access_token|code|error)` with the
case-insensitive flag, true exactly when one of the three literals occurs
anywhere in `url` regardless of case. -/
def Authenticator.isTokenUrl (url : String) : Bool :=
  occursWithin "access_token".toList (lowerList url.toList) ||
  occursWithin "code".toList (lowerList url.toList) ||
  occursWithin "error".toList (lowerList url.toList)

/-- Observable outcome of `Authenticator.isAuthDialog`: either it returns
`false`, or it calls `Office.context.ui.messageParent` with the stringified
parse result of the current URL and returns `true`. -/
inductive AuthDialogOutcome
  | returnedFalse
  | forwarded (msg : Option JObj)
deriving DecidableEq

/-- Embedding of `Authenticator.isAuthDialog()` (`authenticator.ts:163-176`) as a
function of the execution context (`isAddin`), the current time and the current
location's `href` and `origin`. -/
def Authenticator.isAuthDialog (isAddin : Bool) (now : Int) (href : String) (origin : String) :
    AuthDialogOutcome :=
  if !isAddin then .returnedFalse
  else if !(Authenticator.isTokenUrl href) then .returnedFalse
  else .forwarded (TokenManager.getToken now href origin)

/- ### Sample data used to instantiate the theorems -/

/-- Sample registered endpoint without a configured token URL. -/
def sampleRedirectEndpoint : IEndpoint :=
  { provider := "p", baseUrl := "https://login.example/auth",
    redirectUrl := "https://cb.example/", tokenUrl := none }

/-- Sample registered endpoint with a configured token URL. -/
def sampleTokenUrlEndpoint : IEndpoint :=
  { provider := "q", baseUrl := "https://login.example/q",
    redirectUrl := "https://cb.example/q", tokenUrl := some "https://api.example/token" }

/- ### General lemmas about the embedding -/

theorem surfaceEffects_append (l₁ l₂ : List Effect) :
    surfaceEffects (l₁ ++ l₂) = surfaceEffects l₁ ++ surfaceEffects l₂ := by
  simp [surfaceEffects, List.filter_append]

theorem authenticateTail_surfaces_le_one (reg : EndpointRegistry) (mode : AuthenticationMode)
    (isAddin : Bool) (provider : String) (warns : List Effect)
    (hw : surfaceEffects warns = []) :
    (surfaceEffects (authenticateTail reg mode isAddin provider warns).2).length ≤ 1 := by
  have hw' : List.filter isSurfaceEffect warns = [] := hw
  unfold authenticateTail
  cases EndpointManager.get reg provider with
  | none => simp [surfaceEffects, hw']
  | some e =>
    cases mode with
    | Redirect => simp [surfaceEffects, hw']
    | Dialog =>
      cases isAddin <;> simp [surfaceEffects, List.filter_append, hw', isSurfaceEffect]

theorem leadsWith_iff (n : List Char) : ∀ h : List Char,
    leadsWith n h = true ↔ ∃ t, h = n ++ t := by
  induction n with
  | nil => intro h; simp [leadsWith]
  | cons a as ih =>
    intro h
    cases h with
    | nil => simp [leadsWith]
    | cons b bs =>
      simp only [leadsWith, Bool.and_eq_true, beq_iff_eq, ih, List.cons_append,
        List.cons.injEq]
      constructor
      · rintro ⟨rfl, t, rfl⟩; exact ⟨t, rfl, rfl⟩
      · rintro ⟨t, rfl, rfl⟩; exact ⟨rfl, t, rfl⟩

theorem occursWithin_iff (n : List Char) : ∀ h : List Char,
    occursWithin n h = true ↔ ∃ l r, h = l ++ (n ++ r) := by
  intro h
  induction h with
  | nil =>
    simp only [occursWithin, leadsWith_iff]
    constructor
    · rintro ⟨t, ht⟩; exact ⟨[], t, by simpa using ht⟩
    · rintro ⟨l, r, hlr⟩
      rcases List.append_eq_nil.mp hlr.symm with ⟨rfl, h2⟩
      exact ⟨r, by simpa using h2.symm⟩
  | cons b bs ih =>
    simp only [occursWithin, Bool.or_eq_true, leadsWith_iff, ih]
    constructor
    · rintro (⟨t, ht⟩ | ⟨l, r, hlr⟩)
      · exact ⟨[], t, by simpa using ht⟩
      · exact ⟨b :: l, r, by simp [hlr]⟩
    · rintro ⟨l, r, hlr⟩
      cases l with
      | nil => exact Or.inl ⟨r, by simpa using hlr⟩
      | cons c cl =>
        right
        refine ⟨cl, r, ?_⟩
        have := hlr
        simp only [List.cons_append, List.cons.injEq] at this
        exact this.2

/- ### Claim C1 -/

/-- C1 counterexample: with the Token Store holding an unexpired token for the
unregistered provider "ghost" and `force = false`, `authenticate` resolves with
the cached token; it does not reject with the EndpointNotFound payload, so the
claim's "always rejects ... for every state of the Token Store" fails. -/
theorem C1_cex_cached_token_unregistered_resolves :
    (authenticate [("ghost", [("access_token", JVal.s "tok")])] [] .Dialog false
          "ghost" false 0).1 =
        .resolvedToken [("access_token", JVal.s "tok")] ∧
      (authenticate [("ghost", [("access_token", JVal.s "tok")])] [] .Dialog false
          "ghost" false 0).1 ≠
        .rejectedError ⟨"No such registered endpoint: ghost could be found."⟩ := by
  decide

/-- C1 (amended): for every provider id absent from the Endpoint Registry,
`authenticate` never opens an interactive surface, and it rejects with the
EndpointNotFound error payload except when the cache check resolves first: a
cached usable token with `force = false` is resolved even though the provider
is unregistered. -/
theorem C1_unregistered_rejects_endpointNotFound (store : TokenStore)
    (reg : EndpointRegistry) (mode : AuthenticationMode) (isAddin : Bool)
    (provider : String) (force : Bool) (now : Int)
    (h : EndpointManager.get reg provider = none) :
    surfaceEffects (authenticate store reg mode isAddin provider force now).2 = [] ∧
    ((authenticate store reg mode isAddin provider force now).1 =
        .rejectedError ⟨"No such registered endpoint: " ++ provider ++ " could be found."⟩ ∨
      ∃ t, TokenManager.get store provider = some t ∧
        (authenticate store reg mode isAddin provider force now).1 = .resolvedToken t) := by
  cases htok : TokenManager.get store provider with
  | none => simp [authenticate, htok, authenticateTail, h, surfaceEffects]
  | some t =>
    cases hexp : tokenExpired t now with
    | true =>
      simp [authenticate, htok, hexp, authenticateTail, h, surfaceEffects, isSurfaceEffect,
        List.filter]
    | false =>
      cases force with
      | true => simp [authenticate, htok, hexp, authenticateTail, h, surfaceEffects]
      | false => simp [authenticate, htok, hexp, surfaceEffects]

/-- C1 witness: concrete instantiation of the amended theorem at an unregistered
provider with an empty Token Store. -/
theorem C1_unregistered_rejects_endpointNotFound_witness :
    surfaceEffects (authenticate [] [] .Dialog false "ghost" true 0).2 = [] ∧
    ((authenticate [] [] .Dialog false "ghost" true 0).1 =
        .rejectedError ⟨"No such registered endpoint: " ++ "ghost" ++ " could be found."⟩ ∨
      ∃ t, TokenManager.get [] "ghost" = some t ∧
        (authenticate [] [] .Dialog false "ghost" true 0).1 = .resolvedToken t) :=
  C1_unregistered_rejects_endpointNotFound [] [] .Dialog false "ghost" true 0 (by decide)

/- ### Claim C2 -/

/-- C2: cache-check step. A cached token whose `expires_at` is not in the past
resolves immediately with the cached token and no surface is opened (the effect
list is empty); a cached token whose `expires_at` is in the past makes
`authenticate` with `force = false` behave exactly as with `force = true`. -/
theorem C2_cache_check (store : TokenStore) (reg : EndpointRegistry)
    (mode : AuthenticationMode) (isAddin : Bool) (provider : String)
    (t : JObj) (ts now : Int)
    (hget : TokenManager.get store provider = some t)
    (hexp : jLookup t "expires_at" = some (.n ts)) :
    (now ≤ ts →
        authenticate store reg mode isAddin provider false now = (.resolvedToken t, [])) ∧
    (ts < now →
        authenticate store reg mode isAddin provider false now =
          authenticate store reg mode isAddin provider true now) := by
  constructor
  · intro hle
    have hx : tokenExpired t now = false := by
      simp [tokenExpired, hexp]
      omega
    simp [authenticate, hget, hx]
  · intro hlt
    have hx : tokenExpired t now = true := by
      simp [tokenExpired, hexp]
      omega
    simp [authenticate, hget, hx]

/-- C2 witness: a token for provider "p" with `expires_at = 5` at current time
`0` is returned unchanged with no effects. -/
theorem C2_cache_check_witness :
    authenticate [("p", [("access_token", JVal.s "tok"), ("expires_at", JVal.n 5)])] []
        .Dialog false "p" false 0 =
      (.resolvedToken [("access_token", JVal.s "tok"), ("expires_at", JVal.n 5)], []) :=
  (C2_cache_check [("p", [("access_token", JVal.s "tok"), ("expires_at", JVal.n 5)])] []
      .Dialog false "p" [("access_token", JVal.s "tok"), ("expires_at", JVal.n 5)] 5 0
      (by decide) (by decide)).1 (by decide)

/- ### Claim C9 -/

/-- C9: a cached token with no `expires_at` field is never treated as expired:
`authenticate(provider, false)` resolves with the cached token with no effects,
for every current time and whatever `expires_in` value the token carries. -/
theorem C9_no_expires_at_never_expired (store : TokenStore) (reg : EndpointRegistry)
    (mode : AuthenticationMode) (isAddin : Bool) (provider : String) (t : JObj) (now : Int)
    (hget : TokenManager.get store provider = some t)
    (hexp : jLookup t "expires_at" = none) :
    authenticate store reg mode isAddin provider false now = (.resolvedToken t, []) := by
  have hx : tokenExpired t now = false := by simp [tokenExpired, hexp]
  simp [authenticate, hget, hx]

/-- C9 witness: a token carrying `expires_in` but no `expires_at` is resolved
from the cache at an arbitrarily late current time. -/
theorem C9_no_expires_at_never_expired_witness :
    authenticate [("p", [("access_token", JVal.s "k"), ("expires_in", JVal.s "3600")])] []
        .Dialog false "p" false 999999999999 =
      (.resolvedToken [("access_token", JVal.s "k"), ("expires_in", JVal.s "3600")], []) :=
  C9_no_expires_at_never_expired
    [("p", [("access_token", JVal.s "k"), ("expires_in", JVal.s "3600")])] [] .Dialog false
    "p" [("access_token", JVal.s "k"), ("expires_in", JVal.s "3600")] 999999999999
    (by decide) (by decide)

/- ### Claim C5 -/

/-- C5: for a registered endpoint with no `tokenUrl`, `exchangeCodeForToken`
resolves with the input payload unchanged, sends no network request and leaves
the Token Store untouched, whatever response the network would have given. -/
theorem C5_exchange_without_tokenUrl_is_noop (reg : EndpointRegistry) (store : TokenStore)
    (provider : String) (data : JObj) (resp : Option HttpResp) (e : IEndpoint)
    (hreg : EndpointManager.get reg provider = some e)
    (hurl : e.tokenUrl = none) :
    exchangeCodeForToken reg store provider data resp =
      { settlement := some (.resolved data), store := store, requestSent := false } := by
  simp [exchangeCodeForToken, hreg, hurl]

/-- C5 witness: exchanging `{code: "abc"}` against the sample endpoint without a
token URL resolves with `{code: "abc"}` itself. -/
theorem C5_exchange_without_tokenUrl_is_noop_witness :
    exchangeCodeForToken [("p", sampleRedirectEndpoint)] [] "p" [("code", JVal.s "abc")] none =
      { settlement := some (.resolved [("code", JVal.s "abc")]), store := [],
        requestSent := false } :=
  C5_exchange_without_tokenUrl_is_noop [("p", sampleRedirectEndpoint)] [] "p"
    [("code", JVal.s "abc")] none sampleRedirectEndpoint (by decide) (by decide)

/- ### Claim C8 -/

/-- C8: for a provider absent from the Endpoint Registry,
`exchangeCodeForToken` rejects with the raw `TypeError` thrown while reading
`tokenUrl` of the `null` endpoint inside the promise executor — not with an
EndpointNotFound-style error payload — and the Token Store is unchanged with no
request sent. -/
theorem C8_exchange_unregistered_throws_typeError (reg : EndpointRegistry)
    (store : TokenStore) (provider : String) (data : JObj) (resp : Option HttpResp)
    (h : EndpointManager.get reg provider = none) :
    exchangeCodeForToken reg store provider data resp =
      { settlement := some .thrownTypeError, store := store, requestSent := false } ∧
    (exchangeCodeForToken reg store provider data resp).settlement ≠
      some (.rejectedError
        (.msg ("No such registered endpoint: " ++ provider ++ " could be found."))) := by
  have hx : exchangeCodeForToken reg store provider data resp =
      { settlement := some .thrownTypeError, store := store, requestSent := false } := by
    simp [exchangeCodeForToken, h]
  exact ⟨hx, by rw [hx]; simp⟩

/-- C8 witness: exchanging against an empty registry leaves the sample store
unchanged and rejects with the thrown `TypeError`. -/
theorem C8_exchange_unregistered_throws_typeError_witness :
    exchangeCodeForToken [] [("p", [("access_token", JVal.s "x")])] "ghost"
        [("code", JVal.s "abc")] none =
      { settlement := some .thrownTypeError,
        store := [("p", [("access_token", JVal.s "x")])], requestSent := false } :=
  (C8_exchange_unregistered_throws_typeError [] [("p", [("access_token", JVal.s "x")])]
    "ghost" [("code", JVal.s "abc")] none (by decide)).1

/- ### Claim C3 -/

/-- C3: Redirect-mode divergence. With a registered provider and no usable
cached token, `authenticate` in Redirect mode passes `Promise.reject` the
*function* `() => { location.replace(loginUrl); return {error: ...} }`; the
function value itself becomes the rejection reason and is never invoked, so the
page location is never replaced (the effect list is empty — in particular it
contains no `Effect.locationReplace`) and the rejection reason is not an
`{error: string}` payload. This contradicts both the spec's Redirect contract
and the source's own documentation of Redirect mode ("Run the authenticator by
redirecting the current window"). -/
theorem C3_redirect_rejects_with_uninvoked_function :
    authenticate [] [("p", sampleRedirectEndpoint)] .Redirect false "p" false 0 =
      (.rejectedThunk "https://login.example/auth" ⟨"Redirecting to endpoint: p"⟩, []) := by
  decide

/- ### Claim C4 -/

/-- C4 counterexample: with a registered endpoint whose token URL is configured,
a transport fault (the XHR `onload` callback never fires, and the code installs
no `onerror` handler) leaves the promise of `exchangeCodeForToken` unsettled
forever, contradicting "a transport fault rejects with an Error wrapping the
exception (the promise always settles)". -/
theorem C4_cex_transport_fault_never_settles :
    (exchangeCodeForToken [("q", sampleTokenUrlEndpoint)] [] "q" [("code", JVal.s "abc")]
        none).settlement = none := by
  decide

/-- C4 (amended): outcome classification of `exchangeCodeForToken` with a
configured token URL. HTTP 200 whose JSON body has a top-level `access_token`
persists the body into the Token Store under the endpoint's provider key and
resolves with it; HTTP 200 without `access_token` rejects with the raw JSON;
non-200 rejects with an Error wrapping the raw response body; malformed JSON on
a 200 response rejects with an Error wrapping the `JSON.parse` exception; but a
transport fault never settles the promise. -/
theorem C4_exchange_outcome_classification (reg : EndpointRegistry) (store : TokenStore)
    (provider : String) (data : JObj) (e : IEndpoint) (url : String) (r : HttpResp)
    (hreg : EndpointManager.get reg provider = some e)
    (hurl : e.tokenUrl = some url) :
    (∀ json, r.status = 200 → r.parsed = some json →
        (hasKey json "access_token" = true →
          exchangeCodeForToken reg store provider data (some r) =
            { settlement := some (.resolved json),
              store := TokenManager.add store e.provider json, requestSent := true }) ∧
        (hasKey json "access_token" = false →
          exchangeCodeForToken reg store provider data (some r) =
            { settlement := some (.rejectedJson json), store := store,
              requestSent := true })) ∧
    (r.status = 200 → r.parsed = none →
        exchangeCodeForToken reg store provider data (some r) =
          { settlement := some (.rejectedError (.syntaxError r.raw)), store := store,
            requestSent := true }) ∧
    (r.status ≠ 200 →
        exchangeCodeForToken reg store provider data (some r) =
          { settlement := some (.rejectedError (.msg ("Request failed. " ++ r.raw))),
            store := store, requestSent := true }) ∧
    (exchangeCodeForToken reg store provider data none).settlement = none := by
  refine ⟨?_, ?_, ?_, ?_⟩
  · intro json hs hp
    constructor <;> intro hk <;> simp [exchangeCodeForToken, hreg, hurl, hs, hp, hk]
  · intro hs hp
    simp [exchangeCodeForToken, hreg, hurl, hs, hp]
  · intro hs
    simp [exchangeCodeForToken, hreg, hurl, beq_iff_eq, hs]
  · simp [exchangeCodeForToken, hreg, hurl]

/-- C4 witness: a 200 response carrying `access_token` resolves with the body
and persists it under provider "q". -/
theorem C4_exchange_outcome_classification_witness :
    exchangeCodeForToken [("q", sampleTokenUrlEndpoint)] [] "q" [("code", JVal.s "abc")]
        (some { status := 200, raw := "{}",
                parsed := some [("access_token", JVal.s "tok123")] }) =
      { settlement := some (.resolved [("access_token", JVal.s "tok123")]),
        store := [("q", [("access_token", JVal.s "tok123")])], requestSent := true } :=
  ((C4_exchange_outcome_classification [("q", sampleTokenUrlEndpoint)] [] "q"
      [("code", JVal.s "abc")] sampleTokenUrlEndpoint "https://api.example/token"
      { status := 200, raw := "{}", parsed := some [("access_token", JVal.s "tok123")] }
      (by decide) (by decide)).1
    [("access_token", JVal.s "tok123")] rfl rfl).1 (by decide)

/- ### Claim C7 -/

/-- C7 counterexample: a popup that did open (`refNull = false`) and was then
closed externally keeps polling after a tick in which inspecting the document
URL throws — the loop does not stop and nothing is rejected, contradicting the
claimed handling of externally closed/invalidated popups. -/
theorem C7_cex_externally_closed_popup_keeps_polling :
    popupRun 0 "https://cb.example/" false [.externClose, .tick .throws] =
      { refNull := false, closedByCode := false, closedExternally := true,
        polling := true, settled := none } := by
  decide

/-- C7 (amended): on a poll tick in which inspecting the popup's document URL
throws, the loop stops and rejects exactly when the popup reference is `null`
(the popup never opened, e.g. it was blocked); otherwise — including when an
open popup has since been closed externally — the exception is swallowed and
the state is unchanged. -/
theorem C7_throwing_tick_checks_ref_nullity (now : Int) (ru : String) (s : PopupState)
    (hpoll : s.polling = true) :
    (s.refNull = true →
        popupStep now ru s (.tick .throws) =
          { s with polling := false, settled := some .rejectedExn }) ∧
    (s.refNull = false → popupStep now ru s (.tick .throws) = s) := by
  constructor <;> intro h <;> simp [popupStep, hpoll, h]

/-- C7 witness: instantiation at a blocked popup (null reference) and at an
open, externally-closed popup. -/
theorem C7_throwing_tick_checks_ref_nullity_witness :
    popupStep 0 "https://cb.example/" (popupInit true) (.tick .throws) =
      { popupInit true with polling := false, settled := some .rejectedExn } ∧
    popupStep 0 "https://cb.example/"
        { popupInit false with closedExternally := true } (.tick .throws) =
      { popupInit false with closedExternally := true } :=
  ⟨(C7_throwing_tick_checks_ref_nullity 0 "https://cb.example/" (popupInit true) rfl).1 rfl,
   (C7_throwing_tick_checks_ref_nullity 0 "https://cb.example/"
      { popupInit false with closedExternally := true } rfl).2 rfl⟩

/- ### Claim C6 -/

theorem popupStep_preserves_closed (now : Int) (ru : String) (s : PopupState)
    (ev : PopupEvent)
    (h : s.settled.isSome = true → s.refNull = true ∨ s.closedByCode = true) :
    (popupStep now ru s ev).settled.isSome = true →
      (popupStep now ru s ev).refNull = true ∨
        (popupStep now ru s ev).closedByCode = true := by
  cases ev with
  | externClose => simpa [popupStep] using h
  | tick obs =>
    cases hp : s.polling with
    | false => simpa [popupStep, hp] using h
    | true =>
      cases obs with
      | url u =>
        cases hocc : occursWithin ru.data u.data with
        | false => simpa [popupStep, hp, hocc] using h
        | true =>
          cases hg : TokenManager.getToken now u ru with
          | none => simp [popupStep, hp, hocc, hg]
          | some r => simp [popupStep, hp, hocc, hg]
      | throws =>
        cases hn : s.refNull with
        | false => simpa [popupStep, hp, hn] using h
        | true => simp [popupStep, hp, hn]

theorem popupFoldl_preserves_closed (now : Int) (ru : String) (evs : List PopupEvent) :
    ∀ s : PopupState,
      (s.settled.isSome = true → s.refNull = true ∨ s.closedByCode = true) →
      (evs.foldl (popupStep now ru) s).settled.isSome = true →
        (evs.foldl (popupStep now ru) s).refNull = true ∨
          (evs.foldl (popupStep now ru) s).closedByCode = true := by
  induction evs with
  | nil => intro s h; simpa using h
  | cons e es ih =>
    intro s h
    simpa [List.foldl_cons] using
      ih (popupStep now ru s e) (popupStep_preserves_closed now ru s e h)

theorem dialogStep_dialogClosed (s : DialogState) (m : DialogMsg) :
    (dialogStep s m).dialogClosed = true := by
  cases hs : s.settled <;> cases m <;> simp [dialogStep, hs]

theorem dialogFoldl_preserves_closed (msgs : List DialogMsg) :
    ∀ s : DialogState,
      (s.settled.isSome = true → s.dialogClosed = true) →
      (msgs.foldl dialogStep s).settled.isSome = true →
        (msgs.foldl dialogStep s).dialogClosed = true := by
  induction msgs with
  | nil => intro s h; simpa using h
  | cons m ms ih =>
    intro s h
    simpa [List.foldl_cons] using
      ih (dialogStep s m) (fun _ => dialogStep_dialogClosed s m)

/-- C6: surface-lifecycle invariant. Every `authenticate` call performs at most
one surface-opening effect; in every reachable state of the popup machine in
which the promise has settled, the popup was either never opened
(`refNull = true`) or has been closed by the controller; and in every reachable
state of the dialog machine in which the promise has settled, the dialog has
been closed — on every path, including ticks in which probing the popup state
threw and messages whose parsing threw. -/
theorem C6_surface_lifecycle :
    (∀ (store : TokenStore) (reg : EndpointRegistry) (mode : AuthenticationMode)
        (isAddin : Bool) (provider : String) (force : Bool) (now : Int),
        (surfaceEffects (authenticate store reg mode isAddin provider force now).2).length ≤ 1) ∧
    (∀ (now : Int) (ru : String) (refNull : Bool) (evs : List PopupEvent),
        (popupRun now ru refNull evs).settled.isSome = true →
          (popupRun now ru refNull evs).refNull = true ∨
            (popupRun now ru refNull evs).closedByCode = true) ∧
    (∀ msgs : List DialogMsg,
        (dialogRun msgs).settled.isSome = true → (dialogRun msgs).dialogClosed = true) := by
  refine ⟨?_, ?_, ?_⟩
  · intro store reg mode isAddin provider force now
    unfold authenticate
    cases TokenManager.get store provider with
    | none => exact authenticateTail_surfaces_le_one reg mode isAddin provider [] rfl
    | some t =>
      cases hexp : tokenExpired t now with
      | true =>
        simp only [hexp, if_true]
        exact authenticateTail_surfaces_le_one reg mode isAddin provider _ rfl
      | false =>
        cases force with
        | true =>
          simp only [hexp]
          exact authenticateTail_surfaces_le_one reg mode isAddin provider [] rfl
        | false => simp [hexp, surfaceEffects]
  · intro now ru refNull evs
    exact popupFoldl_preserves_closed now ru evs (popupInit refNull) (by simp [popupInit])
  · intro msgs
    exact dialogFoldl_preserves_closed msgs dialogInit (by simp [dialogInit])

/-- C6 witness: a settling popup run ends with the popup closed by the
controller, and a settling dialog run ends with the dialog closed. -/
theorem C6_surface_lifecycle_witness :
    (popupRun 0 "https://cb.example/" false
        [.tick (.url "https://cb.example/?access_token=t")]).settled.isSome = true ∧
    ((popupRun 0 "https://cb.example/" false
        [.tick (.url "https://cb.example/?access_token=t")]).refNull = true ∨
      (popupRun 0 "https://cb.example/" false
        [.tick (.url "https://cb.example/?access_token=t")]).closedByCode = true) ∧
    (dialogRun [.payload [("error", JVal.s "denied")]]).settled.isSome = true ∧
    (dialogRun [.payload [("error", JVal.s "denied")]]).dialogClosed = true :=
  ⟨by decide,
   C6_surface_lifecycle.2.1 0 "https://cb.example/" false
     [.tick (.url "https://cb.example/?access_token=t")] (by decide),
   by decide,
   C6_surface_lifecycle.2.2 [.payload [("error", JVal.s "denied")]] (by decide)⟩

/- ### Claim C10 -/

/-- C10: `isTokenUrl(url)` is true exactly when one of the literals
`access_token`, `code`, `error` occurs anywhere in `url` case-insensitively
(as a decomposition of the lower-cased character list), and consequently in an
add-in context `isAuthDialog` on any such current URL forwards the parse result
of that URL to the parent context and returns true. -/
theorem C10_isTokenUrl_substring_semantics :
    (∀ url : String, Authenticator.isTokenUrl url = true ↔
        ((∃ l r, lowerList url.toList = l ++ ("access_token".toList ++ r)) ∨
         (∃ l r, lowerList url.toList = l ++ ("code".toList ++ r)) ∨
         (∃ l r, lowerList url.toList = l ++ ("error".toList ++ r)))) ∧
    (∀ (now : Int) (href origin : String), Authenticator.isTokenUrl href = true →
        Authenticator.isAuthDialog true now href origin =
          .forwarded (TokenManager.getToken now href origin)) := by
  constructor
  · intro url
    simp only [Authenticator.isTokenUrl, Bool.or_eq_true, occursWithin_iff]
    exact or_assoc
  · intro now href origin h
    simp [Authenticator.isAuthDialog, h]

/-- C10 witness: a URL merely containing "code" in its path is treated as
carrying an authentication result and is forwarded to the parent. -/
theorem C10_isTokenUrl_substring_semantics_witness :
    Authenticator.isTokenUrl "https://app.example/codes/start" = true ∧
    Authenticator.isAuthDialog true 0 "https://app.example/codes/start"
        "https://app.example" =
      .forwarded (TokenManager.getToken 0 "https://app.example/codes/start"
        "https://app.example") :=
  ⟨by decide,
   C10_isTokenUrl_substring_semantics.2 0 "https://app.example/codes/start"
     "https://app.example" (by decide)⟩
